import Mathlib

/-!
Shallow embedding of the spacebar-server-rs real-time push layer:
the event bus (`crates/events/src/lib.rs`) and the gateway connection
loop, opcode dispatcher and error taxonomy
(`crates/gateway/src/{connection,error}.rs`, `crates/gateway/src/opcodes/`).

Rust `serde_json::Value` is modelled by `Json`; Rust `Option<T>` by
`Option`; fallible operations by `Except`; the side effects of the bus
(broker declarations, publishes, local channel sends) and of the
connection loop (registry mutations, outbound frames) are reified as
lists of effect values so that theorems can speak about them.
-/

/-- Model of `serde_json::Value`.  Numbers are modelled as integers;
no claim inspects numeric payloads, the payload is opaque data. -/
inductive Json where
  | null : Json
  | bool (b : Bool) : Json
  | num (n : Int) : Json
  | str (s : String) : Json
  | arr (elems : List Json) : Json
  | obj (fields : List (String × Json)) : Json

/-- `events::Event` (crates/events/src/lib.rs, lines 9-16). -/
structure Event where
  event : String
  data : Json
  guild_id : Option String
  channel_id : Option String
  user_id : Option String

/-- The routing id derived by `emit_event` (lib.rs lines 43-48) and
recomputed by the local subscriber task (lib.rs lines 137-142):
`event.guild_id.clone().or(event.channel_id.clone()).or(event.user_id.clone())`. -/
def routingId (e : Event) : Option String :=
  (e.guild_id.or e.channel_id).or e.user_id

/-- Which backend the bus is pinned to.  `uninit` models the state in
which neither `RABBIT_CH` nor `LOCAL_TX` has been set (lib.rs lines 18-20);
`broker` models `RABBIT_CH` set; `local` models `LOCAL_TX` set.
`init_event` sets at most one of them. -/
inductive BusState where
  | uninit : BusState
  | broker : BusState
  | local : BusState
deriving DecidableEq

/-- Errors `init_event` can return.  `conn.create_channel().await?`
(lib.rs line 30) propagates a channel-creation failure out of
`init_event`. -/
inductive InitError where
  | channelCreateFailed : InitError
deriving DecidableEq

/-- `init_event` (lib.rs lines 22-40).  Network behaviour is abstracted
into the two booleans: `connectOk` is whether `Connection::connect(host, ...)`
returns `Ok` (line 29), `channelOk` is whether `conn.create_channel()`
returns `Ok` (line 30).  The result is the new bus state together with
the error, if any, that the function returns; on an error (`?`) the
state is unchanged (nothing was pinned). -/
def init_event (st : BusState) (host : Option String)
    (connectOk channelOk : Bool) : BusState × Option InitError :=
  if st ≠ BusState.uninit then
    (st, none)
  else
    match host with
    | some _ =>
        if connectOk then
          if channelOk then (BusState.broker, none)
          else (st, some InitError.channelCreateFailed)
        else (BusState.local, none)
    | none => (BusState.local, none)

/-- The error of `emit_event`: `anyhow!("event doesn't contain any id")`
(lib.rs line 48), called `MissingRoutingKey` in the spec. -/
inductive EmitError where
  | missingRoutingKey : EmitError
deriving DecidableEq

/-- Observable side effects of `emit_event`. -/
inductive EmitEffect where
  | exchangeDeclare (topic : String) : EmitEffect
  | brokerPublish (topic : String) (eventName : String) (payload : Json) : EmitEffect
  | localSend (e : Event) : EmitEffect

/-- `emit_event` (lib.rs lines 42-67).  The routing id is derived first
and its absence fails before any backend is touched; with `RABBIT_CH`
set the exchange is declared and the payload published on it; with
`LOCAL_TX` set the event is sent on the broadcast channel (the send
result is discarded, line 64); with neither set the function silently
returns `Ok(())` doing nothing (there is no `else` branch). -/
def emit_event (st : BusState) (e : Event) : Except EmitError (List EmitEffect) :=
  match routingId e with
  | none => .error EmitError.missingRoutingKey
  | some id =>
      match st with
      | .broker => .ok [EmitEffect.exchangeDeclare id,
                        EmitEffect.brokerPublish id e.event e.data]
      | .local => .ok [EmitEffect.localSend e]
      | .uninit => .ok []

/-- The error of `listen_event` when neither backend is set:
`anyhow!("events system not initialized")` (lib.rs line 157), called
`BusUninitialized` in the spec. -/
inductive ListenError where
  | busUninitialized : ListenError
deriving DecidableEq

/-- `listen_event`'s backend selection (lib.rs lines 75, 129, 156-158):
subscribing succeeds on either pinned backend and fails with the
uninitialized error when neither backend is set. -/
def listen_event (st : BusState) (_topic : String) : Except ListenError Unit :=
  match st with
  | .broker => .ok ()
  | .local => .ok ()
  | .uninit => .error ListenError.busUninitialized

/-- One result of `rx.recv().await` on the local broadcast receiver
(lib.rs lines 135-149): a received event, a closed channel, or a lag
notification (`RecvError::Lagged`). -/
inductive RecvItem where
  | ok (e : Event) : RecvItem
  | closed : RecvItem
  | lagged : RecvItem

/-- The local-backend subscriber loop (lib.rs lines 133-151) run over a
list of receiver results, returning the events passed to the callback in
order: a received event is delivered iff its derived routing id equals
the subscribed topic; `Closed` breaks the loop; `Lagged` continues. -/
def localLoop (topic : String) : List RecvItem → List Event
  | [] => []
  | RecvItem.ok e :: rest =>
      if routingId e = some topic then e :: localLoop topic rest
      else localLoop topic rest
  | RecvItem.closed :: _ => []
  | RecvItem.lagged :: rest => localLoop topic rest

/-- The events the receiver hands to the loop before the channel closes,
regardless of topic: the reference stream against which delivery is
compared. -/
def receivedBeforeClose : List RecvItem → List Event
  | [] => []
  | RecvItem.ok e :: rest => e :: receivedBeforeClose rest
  | RecvItem.closed :: _ => []
  | RecvItem.lagged :: rest => receivedBeforeClose rest

/-- One delivery handed to the broker-backend consumer task
(lib.rs lines 104-122): `payload` is the result of
`serde_json::from_slice(&delivery.data)` (`none` = decode failure) and
`kind` is `delivery.properties.kind()` (the message-type metadata). -/
structure Delivery where
  payload : Option Json
  kind : Option String

/-- The event the broker-backend consumer reconstructs for one delivery
(lib.rs lines 106-119): data falls back to `Value::Null`, the event name
falls back to the empty string, the routing key is the subscribed topic
placed in `guild_id`, and the other scopes are `None`. -/
def brokerReconstruct (topic : String) (d : Delivery) : Event :=
  { event := d.kind.getD ""
    data := d.payload.getD Json.null
    guild_id := some topic
    channel_id := none
    user_id := none }

/-- The broker consumer's handling of one `consumer.next()` item
(lib.rs lines 104-122): an `Ok` delivery always reaches the callback
with the reconstructed event; an `Err` delivery is skipped. -/
def brokerStep (topic : String) : Option Delivery → Option Event
  | some d => some (brokerReconstruct topic d)
  | none => none

/-- Digit-string value accumulation for `str::parse::<u16>()`. -/
def digitsVal (cs : List Char) : Nat :=
  cs.foldl (fun acc ch => acc * 10 + (ch.toNat - 48)) 0

/-- `str::parse::<u16>()` as used on each shard part
(connection.rs line 24), over the part's characters: an optional leading
`+`, then one or more ASCII digits, value at most 65535. -/
def parseU16 (cs : List Char) : Option Nat :=
  let t := match cs with
    | c :: rest => if c = '+' then rest else cs
    | [] => cs
  match t with
  | [] => none
  | _ =>
      if t.all Char.isDigit then
        if digitsVal t < 65536 then some (digitsVal t) else none
      else none

/-- `str::split(',')` over a character list: splits at every comma,
keeping empty parts, as Rust's `split` does. -/
def splitComma (cs : List Char) : List (List Char) :=
  match cs with
  | [] => [[]]
  | c :: rest =>
      if c = ',' then [] :: splitComma rest
      else
        match splitComma rest with
        | part :: parts => (c :: part) :: parts
        | [] => [[c]]

/-- `crate::ShardInfo { id, count }` (connection.rs line 25), both
`u16`. -/
structure ShardInfo where
  id : Nat
  count : Nat
deriving DecidableEq

/-- Shard parsing of one `shard` query value (connection.rs lines 21-28):
split on `,`, require exactly two parts, parse both as `u16`; any other
shape yields no shard descriptor. -/
def parseShard (s : String) : Option ShardInfo :=
  match splitComma s.data with
  | [a, b] =>
      match parseU16 a, parseU16 b with
      | some i, some c => some ⟨i, c⟩
      | _, _ => none
  | _ => none

/-- `opcodes::Payload` (opcodes/mod.rs lines 9-14): `op` is a `u8`
(modelled as a `Nat`, intended `< 256`), `d` defaults to `Value::Null`. -/
structure Payload where
  op : Nat
  d : Json

/-- `error::GatewayError` (error.rs lines 6-14). -/
inductive GatewayError where
  | decodeError : GatewayError
  | invalidApiVersion : GatewayError
  | unknownOpcode (code : Nat) : GatewayError
deriving DecidableEq

/-- The `thiserror` display strings of `GatewayError`
(error.rs lines 8-13), used as the close reason. -/
def GatewayError.reason : GatewayError → String
  | .decodeError => "decode error"
  | .invalidApiVersion => "invalid api version"
  | .unknownOpcode code => "unknown opcode " ++ toString code

/-- The numeric close code of `GatewayError::close_frame`
(error.rs lines 19-23). -/
def GatewayError.closeCode : GatewayError → Nat
  | .decodeError => 4002
  | .invalidApiVersion => 4012
  | .unknownOpcode _ => 4001

/-- `axum CloseFrame {code, reason}`. -/
structure CloseFrame where
  code : Nat
  reason : String
deriving DecidableEq

/-- `GatewayError::close_frame` (error.rs lines 17-26). -/
def GatewayError.close_frame (e : GatewayError) : CloseFrame :=
  { code := e.closeCode, reason := e.reason }

/-- An outbound websocket frame sent by the gateway. -/
inductive Frame where
  | text (s : String) : Frame
  | closeMsg (cf : CloseFrame) : Frame
deriving DecidableEq

/-- The Heartbeat-Ack text, `json!({"op": 11}).to_string()`
(opcodes/handlers.rs line 12). -/
def heartbeatAckText : String := "\x7b\"op\":11\x7d"

/-- `opcodes::dispatch` (opcodes/mod.rs lines 16-27) together with the
frames the selected handler sends (opcodes/handlers.rs): op 1
(heartbeat) sends one Heartbeat-Ack text frame and succeeds; op 2
(identify) and op 6 (resume) send nothing and succeed; any other op
fails with `UnknownOpcode(op)`. -/
def dispatch (p : Payload) : Except GatewayError (List Frame) :=
  if p.op = 1 then .ok [Frame.text heartbeatAckText]
  else if p.op = 2 then .ok []
  else if p.op = 6 then .ok []
  else .error (GatewayError.unknownOpcode p.op)

/-- One inbound item of the receive loop (connection.rs lines 40-76),
with the `serde_json::from_str::<Payload>` decode outcome made explicit:
a text frame that decodes, a text frame that does not, a binary frame, a
peer close frame, any other frame kind (ping/pong), or a transport
error from `socket.recv()` (`Some(Err(_))`). -/
inductive InMsg where
  | textOk (p : Payload) : InMsg
  | textBad : InMsg
  | binary : InMsg
  | close : InMsg
  | other : InMsg
  | recvErr : InMsg

/-- One iteration of the receive loop body (connection.rs lines 40-76):
the frames sent during the iteration and whether the loop continues. -/
def stepMsg (m : InMsg) : List Frame × Bool :=
  match m with
  | .textOk p =>
      match dispatch p with
      | .ok frames => (frames, true)
      | .error e => ([Frame.closeMsg e.close_frame], false)
  | .textBad => ([Frame.closeMsg GatewayError.decodeError.close_frame], false)
  | .binary => ([Frame.closeMsg GatewayError.decodeError.close_frame], false)
  | .close => ([], false)
  | .other => ([], true)
  | .recvErr => ([], false)

/-- The receive loop run over the stream of inbound items, returning
every frame sent inside the loop in order; end of list models
`socket.recv()` returning `None`. -/
def runLoop : List InMsg → List Frame
  | [] => []
  | m :: rest =>
      let (frames, cont) := stepMsg m
      frames ++ (if cont then runLoop rest else [])

/-- `ConnectionInfo { session_id, shard }` (connection.rs line 32). -/
structure ConnectionInfo where
  session_id : String
  shard : Option ShardInfo
deriving DecidableEq

/-- An observable action of `handle_socket`: a registry mutation under
the lock, or a frame sent on the socket. -/
inductive ConnAction where
  | regInsert (info : ConnectionInfo) : ConnAction
  | regRemove : ConnAction
  | send (f : Frame) : ConnAction

/-- The Hello frame text (connection.rs line 37); `serde_json` renders
object keys in sorted order. -/
def helloText : String :=
  "\x7b\"d\":\x7b\"heartbeat_interval\":30000\x7d,\"op\":10\x7d"

/-- `handle_socket` (connection.rs lines 12-84) as the sequence of its
observable actions: insert the connection into the registry, send the
Hello frame, run the receive loop, and on loop exit remove the
connection from the registry.  `sid` stands for the freshly generated
`Uuid::new_v4` session id and `shardQ` for `query.get("shard")`. -/
def handle_socket (sid : String) (shardQ : Option String)
    (msgs : List InMsg) : List ConnAction :=
  ConnAction.regInsert ⟨sid, shardQ.bind parseShard⟩
    :: ConnAction.send (Frame.text helloText)
    :: ((runLoop msgs).map ConnAction.send ++ [ConnAction.regRemove])

/-- Whether an action is a registry insertion. -/
def ConnAction.isInsert : ConnAction → Bool
  | .regInsert _ => true
  | _ => false

/-- Whether an action is a registry removal. -/
def ConnAction.isRemove : ConnAction → Bool
  | .regRemove => true
  | _ => false

/-- C2: the routing topic derived by publish is the guild-scope
identifier when present; otherwise the channel-scope identifier when
present; otherwise the user-scope identifier — guild takes precedence
over channel, which takes precedence over user. -/
theorem routing_topic_precedence (e : Event) :
    (∀ g, e.guild_id = some g → routingId e = some g) ∧
    (e.guild_id = none → ∀ c, e.channel_id = some c → routingId e = some c) ∧
    (e.guild_id = none → e.channel_id = none → routingId e = e.user_id) := by
  refine ⟨?_, ?_, ?_⟩
  · intro g hg
    simp [routingId, hg, Option.or]
  · intro hg c hc
    simp [routingId, hg, hc, Option.or]
  · intro hg hc
    simp [routingId, hg, hc, Option.or]

/-- Witness for C2: concrete events exercising each precedence case. -/
theorem routing_topic_precedence_witness :
    routingId { event := "E", data := Json.null, guild_id := some "G",
                channel_id := some "C", user_id := some "U" } = some "G" ∧
    routingId { event := "E", data := Json.null, guild_id := none,
                channel_id := some "C", user_id := some "U" } = some "C" ∧
    routingId { event := "E", data := Json.null, guild_id := none,
                channel_id := none, user_id := some "U" } = some "U" :=
  ⟨(routing_topic_precedence _).1 "G" rfl,
   (routing_topic_precedence _).2.1 rfl "C" rfl,
   (routing_topic_precedence
      { event := "E", data := Json.null, guild_id := none,
        channel_id := none, user_id := some "U" }).2.2 rfl rfl⟩

/-- C3: when the guild, channel and user scope identifiers are all
absent, `emit_event` fails with the missing-routing-key error on every
backend state, and the error branch carries no effect (nothing is sent
and no broker resource is declared). -/
theorem emit_without_scope_fails (st : BusState) (e : Event)
    (hg : e.guild_id = none) (hc : e.channel_id = none)
    (hu : e.user_id = none) :
    emit_event st e = .error EmitError.missingRoutingKey := by
  simp [emit_event, routingId, hg, hc, hu, Option.or]

/-- Witness for C3: a concrete event with no scope identifier. -/
theorem emit_without_scope_fails_witness :
    emit_event BusState.broker
      { event := "MESSAGE_CREATE", data := Json.null, guild_id := none,
        channel_id := none, user_id := none }
      = .error EmitError.missingRoutingKey :=
  emit_without_scope_fails BusState.broker _ rfl rfl rfl

/-- Counterexample for C5: publishing before `initialize` completes
does not fail — with a derivable routing key and neither backend set,
`emit_event` silently returns success with no effect, because its
backend conditional has no uninitialized `else` branch
(lib.rs lines 50-66). -/
theorem publish_uninit_succeeds_cex :
    emit_event BusState.uninit
      { event := "MESSAGE_CREATE", data := Json.null, guild_id := some "G1",
        channel_id := none, user_id := none }
      = .ok [] := rfl

/-- C5 (amended): before `initialize` completes, subscribe fails with
the bus-uninitialized error, but publish with a derivable routing key
silently succeeds as a no-op. -/
theorem uninit_bus_behaviour (topic : String) (e : Event) (id : String)
    (h : routingId e = some id) :
    listen_event BusState.uninit topic = .error ListenError.busUninitialized ∧
    emit_event BusState.uninit e = .ok [] := by
  refine ⟨rfl, ?_⟩
  simp [emit_event, h]

/-- Witness for C5 (amended): topic "G1", a concrete guild-scoped
event. -/
theorem uninit_bus_behaviour_witness :
    routingId { event := "MESSAGE_CREATE", data := Json.null,
                guild_id := some "G1", channel_id := none,
                user_id := none } = some "G1" ∧
    (listen_event BusState.uninit "G1" = .error ListenError.busUninitialized ∧
     emit_event BusState.uninit
       { event := "MESSAGE_CREATE", data := Json.null, guild_id := some "G1",
         channel_id := none, user_id := none } = .ok []) :=
  ⟨rfl, uninit_bus_behaviour "G1" _ "G1" rfl⟩

/-- C7: an envelope with op 1 makes the dispatcher send exactly one
Heartbeat-Ack (`op` 11) text frame and return success, and the receive
loop continues with no other action. -/
theorem heartbeat_acked (d : Json) (rest : List InMsg) :
    dispatch { op := 1, d := d } = .ok [Frame.text heartbeatAckText] ∧
    stepMsg (InMsg.textOk { op := 1, d := d })
      = ([Frame.text heartbeatAckText], true) ∧
    runLoop (InMsg.textOk { op := 1, d := d } :: rest)
      = Frame.text heartbeatAckText :: runLoop rest := by
  refine ⟨rfl, rfl, ?_⟩
  simp [runLoop, stepMsg, dispatch]

/-- C10: the broker-backend consumer reconstructs every delivered event
with the subscribed topic in `guild_id` and no channel or user scope;
the payload falls back to null when JSON decoding fails and the event
name falls back to the empty string when metadata is missing; every
`Ok` delivery reaches the callback. -/
theorem broker_delivery_reconstruction (topic : String) (d : Delivery) :
    brokerStep topic (some d) = some (brokerReconstruct topic d) ∧
    (brokerReconstruct topic d).guild_id = some topic ∧
    (brokerReconstruct topic d).channel_id = none ∧
    (brokerReconstruct topic d).user_id = none ∧
    (brokerReconstruct topic d).data = d.payload.getD Json.null ∧
    (brokerReconstruct topic d).event = d.kind.getD "" :=
  ⟨rfl, rfl, rfl, rfl, rfl, rfl⟩

/-- Counterexample for C4: with a broker address configured, a
successful connection but a failed channel creation, `init_event`
propagates an error out of initialization and pins no backend at all —
it does not degrade to the Local backend
(`conn.create_channel().await?`, lib.rs line 30). -/
theorem init_event_channel_failure_cex :
    init_event BusState.uninit (some "amqp://127.0.0.1:5672") true false
      = (BusState.uninit, some InitError.channelCreateFailed) := rfl

/-- C4 (amended): once a backend is pinned a later call never switches
it; with no broker address, or with an unreachable broker, `init_event`
pins Local without error; with a reachable broker and a successfully
created channel it pins Broker; but when the connection succeeds and
channel creation fails, the error propagates and nothing is pinned. -/
theorem init_event_pinning (st : BusState) (host : Option String)
    (connectOk channelOk : Bool) :
    (st ≠ BusState.uninit → init_event st host connectOk channelOk = (st, none)) ∧
    (host = none →
      init_event BusState.uninit host connectOk channelOk
        = (BusState.local, none)) ∧
    (∀ h, host = some h → connectOk = false →
      init_event BusState.uninit host connectOk channelOk
        = (BusState.local, none)) ∧
    (∀ h, host = some h → connectOk = true → channelOk = true →
      init_event BusState.uninit host connectOk channelOk
        = (BusState.broker, none)) ∧
    (∀ h, host = some h → connectOk = true → channelOk = false →
      init_event BusState.uninit host connectOk channelOk
        = (BusState.uninit, some InitError.channelCreateFailed)) := by
  refine ⟨?_, ?_, ?_, ?_, ?_⟩
  · intro hst
    simp [init_event, hst]
  · intro hh
    simp [init_event, hh]
  · intro h hh hc
    simp [init_event, hh, hc]
  · intro h hh hc hch
    simp [init_event, hh, hc, hch]
  · intro h hh hc hch
    simp [init_event, hh, hc, hch]

/-- Witness for C4 (amended): each branch at concrete inputs. -/
theorem init_event_pinning_witness :
    init_event BusState.broker (some "amqp://h") true true
      = (BusState.broker, none) ∧
    init_event BusState.uninit none true true = (BusState.local, none) ∧
    init_event BusState.uninit (some "amqp://h") false true
      = (BusState.local, none) ∧
    init_event BusState.uninit (some "amqp://h") true true
      = (BusState.broker, none) ∧
    init_event BusState.uninit (some "amqp://h") true false
      = (BusState.uninit, some InitError.channelCreateFailed) :=
  ⟨(init_event_pinning BusState.broker (some "amqp://h") true true).1
     (by decide),
   (init_event_pinning BusState.uninit none true true).2.1 rfl,
   (init_event_pinning BusState.uninit (some "amqp://h") false true).2.2.1
     "amqp://h" rfl rfl,
   (init_event_pinning BusState.uninit (some "amqp://h") true true).2.2.2.1
     "amqp://h" rfl rfl rfl,
   (init_event_pinning BusState.uninit (some "amqp://h") true false).2.2.2.2
     "amqp://h" rfl rfl rfl⟩

/-- C6: a well-formed envelope whose op is not 1, 2 or 6 makes the
dispatcher fail with the unknown-opcode error, and the receive loop then
sends exactly one close frame carrying close code 4001 and the error's
reason string and terminates: no further frame is sent whatever inbound
traffic follows. -/
theorem unknown_opcode_closes (op : Nat) (d : Json) (rest : List InMsg)
    ( _hop : op < 256) (h1 : op ≠ 1) (h2 : op ≠ 2) (h6 : op ≠ 6) :
    dispatch { op := op, d := d } = .error (GatewayError.unknownOpcode op) ∧
    runLoop (InMsg.textOk { op := op, d := d } :: rest)
      = [Frame.closeMsg { code := 4001,
                          reason := "unknown opcode " ++ toString op }] := by
  have hd : dispatch { op := op, d := d }
      = .error (GatewayError.unknownOpcode op) := by
    simp [dispatch, h1, h2, h6]
  refine ⟨hd, ?_⟩
  simp [runLoop, stepMsg, hd, GatewayError.close_frame, GatewayError.closeCode,
    GatewayError.reason]

/-- Witness for C6: op 99 followed by a heartbeat that is never
answered. -/
theorem unknown_opcode_closes_witness :
    (99 : Nat) < 256 ∧ (99 : Nat) ≠ 1 ∧ (99 : Nat) ≠ 2 ∧ (99 : Nat) ≠ 6 ∧
    (dispatch { op := 99, d := Json.null }
        = .error (GatewayError.unknownOpcode 99) ∧
     runLoop [InMsg.textOk { op := 99, d := Json.null },
              InMsg.textOk { op := 1, d := Json.null }]
        = [Frame.closeMsg { code := 4001, reason := "unknown opcode 99" }]) :=
  ⟨by decide, by decide, by decide, by decide,
   unknown_opcode_closes 99 Json.null [InMsg.textOk { op := 1, d := Json.null }]
     (by decide) (by decide) (by decide) (by decide)⟩

/-- C1: under the Local backend, a received event reaches the
subscriber's callback iff its derived routing topic equals the
subscribed topic (subscribers of any other topic never receive it), and
a lag notification never terminates the subscription loop. -/
theorem local_delivery_iff_topic_match (topic : String)
    (items : List RecvItem) :
    (∀ e : Event, e ∈ localLoop topic items ↔
        e ∈ receivedBeforeClose items ∧ routingId e = some topic) ∧
    (∀ rest : List RecvItem,
        localLoop topic (RecvItem.lagged :: rest) = localLoop topic rest) := by
  refine ⟨?_, fun _ => rfl⟩
  intro e
  induction items with
  | nil => simp [localLoop, receivedBeforeClose]
  | cons m rest ih =>
    cases m with
    | ok ev =>
      by_cases h : routingId ev = some topic
      · simp only [localLoop, receivedBeforeClose, if_pos h, List.mem_cons]
        constructor
        · rintro (rfl | hm)
          · exact ⟨Or.inl rfl, h⟩
          · rcases ih.mp hm with ⟨h1, h2⟩
            exact ⟨Or.inr h1, h2⟩
        · rintro ⟨rfl | hm, ht⟩
          · exact Or.inl rfl
          · exact Or.inr (ih.mpr ⟨hm, ht⟩)
      · simp only [localLoop, receivedBeforeClose, if_neg h, List.mem_cons]
        constructor
        · intro hm
          rcases ih.mp hm with ⟨h1, h2⟩
          exact ⟨Or.inr h1, h2⟩
        · rintro ⟨rfl | hm, ht⟩
          · exact absurd ht h
          · exact ih.mpr ⟨hm, ht⟩
    | closed => simp [localLoop, receivedBeforeClose]
    | lagged => simpa [localLoop, receivedBeforeClose] using ih

/-- The receive loop sends only frames, never registry actions. -/
theorem countP_map_send (p : ConnAction → Bool)
    (hp : ∀ f, p (ConnAction.send f) = false) (fs : List Frame) :
    (fs.map ConnAction.send).countP p = 0 := by
  induction fs with
  | nil => rfl
  | cons f fs ih => simp [List.countP_cons, hp, ih]

/-- C8: the action trace of `handle_socket` contains exactly one
registry insertion and exactly one registry removal for every inbound
traffic pattern; the insertion is the very first action, followed by
the Hello frame, and the removal is the very last action, whatever
caused the loop to exit. -/
theorem registry_insert_remove_once (sid : String) (shardQ : Option String)
    (msgs : List InMsg) :
    (handle_socket sid shardQ msgs).countP ConnAction.isInsert = 1 ∧
    (handle_socket sid shardQ msgs).countP ConnAction.isRemove = 1 ∧
    (handle_socket sid shardQ msgs).take 2
      = [ConnAction.regInsert ⟨sid, shardQ.bind parseShard⟩,
         ConnAction.send (Frame.text helloText)] ∧
    (handle_socket sid shardQ msgs).getLast? = some ConnAction.regRemove := by
  have hins := countP_map_send ConnAction.isInsert (fun _ => rfl) (runLoop msgs)
  have hrem := countP_map_send ConnAction.isRemove (fun _ => rfl) (runLoop msgs)
  refine ⟨?_, ?_, rfl, ?_⟩
  · simp [handle_socket, List.countP_cons, List.countP_append, hins,
      ConnAction.isInsert]
  · simp [handle_socket, List.countP_cons, List.countP_append, hrem,
      ConnAction.isRemove]
  · have hsh : handle_socket sid shardQ msgs
        = (ConnAction.regInsert ⟨sid, shardQ.bind parseShard⟩
            :: ConnAction.send (Frame.text helloText)
            :: (runLoop msgs).map ConnAction.send) ++ [ConnAction.regRemove] := by
      simp [handle_socket]
    rw [hsh, List.getLast?_concat]

/-- When the split yields exactly two parts, `parseShard` reduces to
parsing both parts. -/
theorem parseShard_pair (a b : List Char) (s : String)
    (h : splitComma s.data = [a, b]) :
    parseShard s = match parseU16 a, parseU16 b with
      | some i, some c => some ⟨i, c⟩
      | _, _ => none := by
  unfold parseShard
  rw [h]

/-- C9: the shard descriptor is recorded exactly when the shard query
value splits on a comma into two parts that both parse as unsigned
16-bit integers; and whatever the query value (malformed, out of range,
or absent), the connection is accepted — the trace still begins with the
registry insertion, carrying the parsed descriptor or none. -/
theorem shard_descriptor_parsing (sid : String) (q : Option String)
    (msgs : List InMsg) (s : String) (i c : Nat) :
    (parseShard s = some ⟨i, c⟩ ↔
      ∃ a b, splitComma s.data = [a, b] ∧ parseU16 a = some i ∧
        parseU16 b = some c) ∧
    (handle_socket sid q msgs).head?
      = some (ConnAction.regInsert ⟨sid, q.bind parseShard⟩) := by
  refine ⟨?_, rfl⟩
  constructor
  · intro hp
    rcases hsp : splitComma s.data with _ | ⟨a, _ | ⟨b, _ | ⟨x, xs⟩⟩⟩
    · have hnone : parseShard s = none := by
        unfold parseShard
        rw [hsp]
      rw [hnone] at hp
      simp at hp
    · have hnone : parseShard s = none := by
        unfold parseShard
        rw [hsp]
      rw [hnone] at hp
      simp at hp
    · rw [parseShard_pair a b s hsp] at hp
      rcases hpa : parseU16 a with _ | i'
      · rw [hpa] at hp
        simp at hp
      · rcases hpb : parseU16 b with _ | c'
        · rw [hpa, hpb] at hp
          simp at hp
        · rw [hpa, hpb] at hp
          simp only [Option.some.injEq, ShardInfo.mk.injEq] at hp
          exact ⟨a, b, rfl, by rw [hpa, hp.1], by rw [hpb, hp.2]⟩
    · have hnone : parseShard s = none := by
        unfold parseShard
        rw [hsp]
      rw [hnone] at hp
      simp at hp
  · rintro ⟨a, b, hsp, ha, hb⟩
    rw [parseShard_pair a b s hsp, ha, hb]
